import Mathlib

/-!
Shallow embedding of the request-scoped resolution context of the jonson
JSON-RPC framework (src/context.go): the typed value store, the recursion
guard, finalization with error aggregation, and error remodeling.

Type identities (Go reflect.Type values) are modelled as small structures
compared by identity; Go pointers to value slots are modelled by a `ref`
allocation counter carried in the context, so that mutation-through-pointer
after a provider call is faithful even when the provider mutated the store.
Panics are modelled as `Except` errors that still carry the mutated state.
-/

namespace Jonson

/-- Kind of a Go reflect.Type, as far as Require's kind check observes it:
a pointer to a struct, a pointer to something else, an interface, or any
other kind. -/
inductive TKind where
  | ptrStruct
  | ptrOther
  | iface
  | other
deriving DecidableEq

/-- A Go reflect.Type identity: an identity tag plus its kind. -/
structure RType where
  id : Nat
  kind : TKind
deriving DecidableEq

/-- Modelled from the spec: the protocol error shape produced by remodeling
(the Go *jonson.Error / ErrorData types live in a file that is not part of
src/): code, message, and optional data holding a Debug string and a list of
sub-error Details. -/
inductive PError : Type where
  | mk (code : Int) (message : String) (debug : Option String) (details : List PError)

/-- The Details list of a protocol error (empty when no data was attached). -/
def PError.details : PError → List PError
  | .mk _ _ _ d => d

/-- The Debug field of a protocol error. -/
def PError.debug : PError → Option String
  | .mk _ _ dbg _ => dbg

/-- The code of a protocol error. -/
def PError.code : PError → Int
  | .mk c _ _ _ => c

/-- Modelled from the spec: ErrInternal, the JSON-RPC internal-error protocol
error, with no data attached. -/
def ErrInternal : PError := .mk (-32603) "internal error" none []

/-- Modelled from the spec: CloneWithData copies a protocol error and replaces
its data (Debug string and Details list). -/
def PError.cloneWithData : PError → Option String → List PError → PError
  | .mk c m _ _, dbg, det => .mk c m dbg det

/-- A Go error interface value: either a *jonson.Error protocol error or any
other error. The `id` field models the identity of the underlying object, so
that Go's `==` on two error values of the same pointer shape is `id` equality. -/
inductive Err where
  | proto (id : Nat) (e : PError)
  | plain (id : Nat) (msg : String)

/-- Go `==` on two (non-nil) error interface values of pointer shape:
identity of the underlying object, never structural comparison. -/
def errEq : Err → Err → Bool
  | .proto i _, .proto j _ => i == j
  | .plain i _, .plain j _ => i == j
  | _, _ => false

/-- The Error() message of a Go error value. For protocol errors this is
modelled from the spec as the message field. -/
def Err.errMsg : Err → String
  | .proto _ (.mk _ m _ _) => m
  | .plain _ m => m

/-- A stored value: an identity tag (the Go object identity, so that
"identical cached value instance" is statable) and the optional Finalizeable
capability `Finalize([]error) error`. -/
structure Val where
  id : Nat
  fin : Option (List Err → Option Err)

/-- A value slot (Go valueItem): the allocation reference (pointer identity),
the type identity it is keyed by, the held value (None models Go nil), and
the valid flag. -/
structure ValueItem where
  ref : Nat
  rt : RType
  val : Option Val
  valid : Bool

/-- The resolution context: the ordered slot list, the finalized flag, and
the next allocation reference (modelling Go heap allocation of slots). -/
structure Ctx where
  values : List ValueItem
  finalized : Bool
  nextRef : Nat

/-- The panics the context operations can raise (Go panic payloads), plus
panics raised by a Provider itself (e.g. ErrUnauthenticated). -/
inductive Panic where
  | alreadyStored (rt : RType)
  | alreadyFinalized
  | badKind (rt : RType)
  | recursionLoop (inst : RType) (chain : List RType)
  | providerPanic (e : Err)

/-- A Provider: given the (mutable) context and a requested type identity it
returns the mutated context and either a value or a panic. It may call back
into Require/StoreValue/Invalidate on the context it receives. -/
def Provider : Type := Ctx → RType → Ctx × Except Panic (Option Val)

/-- StoreValue (src/context.go): panics if any slot with the same type
identity exists (validity is not consulted), otherwise appends a fresh valid
slot holding the value. -/
def StoreValue (c : Ctx) (rt : RType) (v : Option Val) : Ctx × Except Panic Unit :=
  if c.values.any (fun it => it.rt == rt) then
    (c, Except.error (Panic.alreadyStored rt))
  else
    ({ c with values := c.values ++ [⟨c.nextRef, rt, v, true⟩],
              nextRef := c.nextRef + 1 }, Except.ok ())

/-- Invalidate (src/context.go): keeps exactly the slots whose type identity
is not in the given set, preserving order. -/
def Invalidate (c : Ctx) (rts : List RType) : Ctx :=
  { c with values := c.values.filter (fun it => !(rts.contains it.rt)) }

/-- The chain enumerated by debugRecursionLoop (src/context.go): the type
identities of the slots from the front of the store while they are valid,
stopping at the first invalid slot. -/
def recursionChain (c : Ctx) : List RType :=
  (c.values.takeWhile (fun it => it.valid)).map (fun it => it.rt)

/-- Require's kind check (src/context.go): the requested type must be a
pointer to a struct or an interface. -/
def allowedKind (rt : RType) : Bool :=
  rt.kind == TKind.ptrStruct || rt.kind == TKind.iface

/-- The first slot whose type identity equals the requested one, mirroring
Require's linear scan. -/
def findSlot (c : Ctx) (inst : RType) : Option ValueItem :=
  c.values.find? (fun it => it.rt == inst)

/-- Reservation of a new (invalid, empty) slot for a type, performed by
Require before asking the Provider. -/
def reserve (c : Ctx) (inst : RType) : Ctx :=
  { c with values := c.values ++ [⟨c.nextRef, inst, none, false⟩],
           nextRef := c.nextRef + 1 }

/-- Mutation through the slot pointer after the Provider returned: the slot
with the given allocation reference (wherever it now is, possibly removed)
gets the value and becomes valid. -/
def markValid (c : Ctx) (r : Nat) (v : Option Val) : Ctx :=
  { c with values := c.values.map (fun it =>
      if it.ref == r then { it with val := v, valid := true } else it) }

/-- Require (src/context.go): panics when finalized; panics on a disallowed
kind; returns the held value of the first matching slot when valid; panics
with the recursion-loop diagnostic when that slot is invalid; otherwise
reserves an invalid slot, asks the Provider, marks the slot valid through its
pointer, and returns the provided value. A Provider panic propagates with the
state the Provider left behind (the reserved slot stays invalid). -/
def Require (p : Provider) (c : Ctx) (inst : RType) : Ctx × Except Panic (Option Val) :=
  if c.finalized then (c, Except.error Panic.alreadyFinalized)
  else if !(allowedKind inst) then (c, Except.error (Panic.badKind inst))
  else
    match findSlot c inst with
    | some it =>
      if it.valid then (c, Except.ok it.val)
      else (c, Except.error (Panic.recursionLoop inst (recursionChain c)))
    | none =>
      match p (reserve c inst) inst with
      | (c2, Except.error e) => (c2, Except.error e)
      | (c2, Except.ok v) => (markValid c2 c.nextRef v, Except.ok v)

/-- Marking the context finalized, the first mutation Finalize performs
(before any teardown). -/
def finalizeStart (c : Ctx) : Ctx := { c with finalized := true }

/-- One step of the teardown walk: if the slot's held value exposes the
Finalizeable capability, invoke it with the error set accumulated so far and
append any non-nil returned error. -/
def finalizeStep (acc : List Err) (it : ValueItem) : List Err :=
  match it.val with
  | some v =>
    match v.fin with
    | some f =>
      match f acc with
      | some e => acc ++ [e]
      | none => acc
    | none => acc
  | none => acc

/-- The error set collected by Finalize: the caller-supplied error first (when
non-nil), then the teardown walk over the slots from most-recently-acquired to
least-recently-acquired. -/
def collectedErrors (c : Ctx) (err : Option Err) : List Err :=
  c.values.reverse.foldl finalizeStep (match err with | some e => [e] | none => [])

/-- The normalized sub-error list built by Finalize's remodeling: protocol
errors pass through, any other failure is wrapped as an internal error whose
Debug field is the encoded original message. -/
def remodelSubErrors (enc : String → String) (errs : List Err) : List PError :=
  errs.map (fun e =>
    match e with
    | .proto _ pe => pe
    | .plain _ m => ErrInternal.cloneWithData (some (enc m)) [])

/-- Go's `errors[0] == err` check: the collected set is a single failure and
it is identical (interface equality) to the error originally passed in. -/
def singleIsOriginal (errs : List Err) (err : Option Err) : Bool :=
  match errs, err with
  | [e], some e0 => errEq e e0
  | _, _ => false

/-- The remodeling tail of Finalize (src/context.go): nil on zero failures;
the original error unchanged when it is the single collected failure; else it
builds the normalized sub-error list and returns one internal error whose
Debug is the encoded summary and whose Details is the empty list the source
literally attaches. -/
def remodel (enc : String → String) (err : Option Err) (errs : List Err) : Option Err :=
  if errs.length == 0 then none
  else if errs.length == 1 && singleIsOriginal errs err then err
  else
    let _subErrs := remodelSubErrors enc errs
    some (Err.proto 0 (ErrInternal.cloneWithData (some (enc "finalization failed")) []))

/-- Finalize (src/context.go): a no-op returning its argument when already
finalized; otherwise it sets the finalized flag, walks the slots in reverse
collecting failures, releases all slots, and returns the remodeled result. -/
def Finalize (enc : String → String) (c : Ctx) (err : Option Err) : Ctx × Option Err :=
  if c.finalized then (c, err)
  else
    let c1 := finalizeStart c
    let errs := collectedErrors c1 err
    ({ c1 with values := [] }, remodel enc err errs)

/-- The type identity of *jonson.Context (a pointer to a struct), under which
NewContext registers the context itself. -/
def TypeContext : RType := ⟨0, TKind.ptrStruct⟩

/-- The context object stored under TypeContext; *Context does not implement
the Finalizeable capability (its Finalize has a different signature). -/
def ctxSelfVal : Val := ⟨0, none⟩

/-- NewContext (src/context.go): an empty store to which the context
registers itself under its own type identity. -/
def NewContext : Ctx :=
  (StoreValue { values := [], finalized := false, nextRef := 0 }
    TypeContext (some ctxSelfVal)).1

/-! Concrete material used to instantiate the theorems. -/

/-- A pointer-to-struct type identity used in concrete scenarios. -/
def tyA : RType := ⟨1, TKind.ptrStruct⟩

/-- A second pointer-to-struct type identity. -/
def tyB : RType := ⟨2, TKind.ptrStruct⟩

/-- The type identity of a DB dependency in the store-DB-then-require-Session
scenario. -/
def tyDB : RType := ⟨3, TKind.ptrStruct⟩

/-- The type identity of a Session dependency whose Provider requires DB. -/
def tySession : RType := ⟨4, TKind.ptrStruct⟩

/-- A Provider that returns nil without touching the context. -/
def trivialProvider : Provider := fun c _ => (c, Except.ok none)

/-- A Provider that panics with a plain error, leaving the context as it
received it. -/
def failProvider : Provider := fun c _ =>
  (c, Except.error (Panic.providerPanic (Err.plain 9 "provider exploded")))

/-- A store as it looks when a cycle is detected: two reserved, still
invalid slots for tyA and tyB. -/
def cycleCtx : Ctx := ⟨[⟨0, tyA, none, false⟩, ⟨1, tyB, none, false⟩], false, 2⟩

/-- The caller-supplied error handed to Finalize in the concrete scenarios. -/
def callErr : Err := Err.plain 1 "call failed"

/-- A cleanup failure returned by a finalizer. -/
def cleanupErr : Err := Err.plain 2 "cleanup failed"

/-- A stored value whose Finalizeable capability fails with cleanupErr. -/
def cleanupVal : Val := ⟨10, some (fun _ => some cleanupErr)⟩

/-- A context holding one finalizeable value whose cleanup fails. -/
def oneCleanupCtx : Ctx := ⟨[⟨0, tyA, some cleanupVal, true⟩], false, 1⟩

/-- The cleanup failure of the value stored first. -/
def firstCleanupErr : Err := Err.plain 4 "first cleanup"

/-- The cleanup failure of the value stored second. -/
def secondCleanupErr : Err := Err.plain 5 "second cleanup"

/-- The value stored first; its finalizer fails with firstCleanupErr. -/
def firstFinVal : Val := ⟨11, some (fun _ => some firstCleanupErr)⟩

/-- The value stored second; its finalizer fails with secondCleanupErr. -/
def secondFinVal : Val := ⟨12, some (fun _ => some secondCleanupErr)⟩

/-- A context holding V1 (stored first) and V2 (stored second), both with a
finalize capability. -/
def twoFinCtx : Ctx :=
  ⟨[⟨0, tyA, some firstFinVal, true⟩, ⟨1, tyB, some secondFinVal, true⟩], false, 2⟩

/-- The cached DB value instance. -/
def dbVal : Val := ⟨20, none⟩

/-- The Session value instance produced by its Provider. -/
def sessionVal : Val := ⟨21, none⟩

/-- A context in which DB has already been stored (after the context's own
self-registration). -/
def dbCtx : Ctx :=
  ⟨[⟨0, TypeContext, some ctxSelfVal, true⟩, ⟨1, tyDB, some dbVal, true⟩], false, 2⟩

/-- The Session Provider: it requires DB on the context it is given, then
produces the session value — the nested Require must hit the DB cache. -/
def sessionProvider : Provider := fun c _ =>
  match Require trivialProvider c tyDB with
  | (c2, Except.ok _) => (c2, Except.ok (some sessionVal))
  | (c2, Except.error e) => (c2, Except.error e)

/-- A context holding a single valid cached slot for tyA. -/
def cachedVal : Val := ⟨30, none⟩

/-- A context with one valid slot for tyA, used for Invalidate scenarios. -/
def cachedCtx : Ctx := ⟨[⟨0, tyA, some cachedVal, true⟩], false, 1⟩

/-! Helper lemmas shared by the theorems below. -/

/-- After Invalidate with a set containing t, no slot for t can be found. -/
theorem findSlot_invalidate_none (c : Ctx) (rts : List RType) (t : RType)
    (h : rts.contains t = true) : findSlot (Invalidate c rts) t = none := by
  rw [findSlot, List.find?_eq_none]
  intro x hx
  rw [Invalidate] at hx
  simp only [List.mem_filter, Bool.not_eq_true'] at hx
  intro hbeq
  have hrt : x.rt = t := by simpa using hbeq
  rw [hrt] at hx
  have hf := hx.2
  rw [h] at hf
  exact absurd hf (by decide)

/-- Reserving a slot for a type not yet present makes that reservation the
first (and only) slot found for the type. -/
theorem findSlot_reserve (c : Ctx) (t : RType) (h : findSlot c t = none) :
    findSlot (reserve c t) t = some ⟨c.nextRef, t, none, false⟩ := by
  rw [findSlot, reserve]
  simp only [List.find?_append]
  rw [findSlot] at h
  simp [h, List.find?]

/-- Marking a fresh reference valid leaves the existing slots untouched when
all their references are older. -/
theorem map_noop (l : List ValueItem) (r : Nat) (v : Option Val)
    (hwf : ∀ x ∈ l, x.ref < r) :
    l.map (fun it => if it.ref == r then { it with val := v, valid := true } else it) = l := by
  induction l with
  | nil => rfl
  | cons a as ih =>
    have ha : a.ref < r := hwf a (List.mem_cons_self a as)
    have hne : (a.ref == r) = false := by
      simp only [beq_eq_false_iff_ne, ne_eq]
      omega
    simp only [List.map_cons, hne, ih (fun x hx => hwf x (List.mem_cons_of_mem a hx))]
    simp

/-- Marking the reservation valid after a non-mutating Provider call appends
exactly one valid slot holding the provided value. -/
theorem markValid_reserve (c : Ctx) (t : RType) (v : Option Val)
    (hwf : ∀ x ∈ c.values, x.ref < c.nextRef) :
    markValid (reserve c t) c.nextRef v =
      { c with values := c.values ++ [⟨c.nextRef, t, v, true⟩],
               nextRef := c.nextRef + 1 } := by
  rw [markValid, reserve]
  simp only [List.map_append, List.map_cons, List.map_nil]
  rw [map_noop c.values c.nextRef v hwf]
  simp

/-! Theorems settling the claims. -/

/-- C1: src/context.go builds the normalized sub-error list (remodelSubErrors)
for the two collected failures, but the internal error it returns carries an
empty Details list — the sub-error list of the returned error has length 0,
not the number of collected failures. Evaluated at the failing input: a
caller error plus one cleanup failure. -/
theorem finalize_discards_suberror_details :
    (collectedErrors (finalizeStart oneCleanupCtx) (some callErr)).length = 2 ∧
    (remodelSubErrors id (collectedErrors (finalizeStart oneCleanupCtx) (some callErr))).length = 2 ∧
    (Finalize id oneCleanupCtx (some callErr)).2
      = some (Err.proto 0 (ErrInternal.cloneWithData (some "finalization failed") [])) ∧
    (ErrInternal.cloneWithData (some "finalization failed") []).details = [] := by
  exact ⟨rfl, rfl, rfl, rfl⟩

/-- C2 (counterexample): with two reserved, still-unresolved slots for tyA
and tyB, Require tyA fails with a recursion diagnostic whose enumerated chain
is empty — it omits every still-unresolved type (tyA and tyB), contradicting
the claim that the diagnostic enumerates the still-unresolved types. -/
theorem require_chain_omits_unresolved :
    Require trivialProvider cycleCtx tyA
      = (cycleCtx, Except.error (Panic.recursionLoop tyA [])) ∧
    (cycleCtx.values.filter (fun it => !it.valid)).map (fun it => it.rt) = [tyA, tyB] ∧
    tyA ∉ ([] : List RType) := by
  refine ⟨rfl, rfl, ?_⟩
  simp

/-- C2 (amended): when Require finds an existing slot for the requested type
that is not yet valid, it fails fatally with a recursion diagnostic naming
that type, and the chain it enumerates is, in acquisition order, the types of
the already-resolved (valid) slots preceding the first still-unresolved slot. -/
theorem require_recursion_diagnostic (p : Provider) (c : Ctx) (inst : RType)
    (it : ValueItem) (hf : c.finalized = false) (hk : allowedKind inst = true)
    (hs : findSlot c inst = some it) (hv : it.valid = false) :
    Require p c inst = (c, Except.error (Panic.recursionLoop inst (recursionChain c))) ∧
    recursionChain c = (c.values.takeWhile (fun i => i.valid)).map (fun i => i.rt) := by
  refine ⟨?_, rfl⟩
  simp [Require, hf, hk, hs, hv]

/-- C2 (witness): the amended diagnostic at the concrete cyclic store. -/
theorem require_recursion_diagnostic_witness :
    Require trivialProvider cycleCtx tyA
      = (cycleCtx, Except.error (Panic.recursionLoop tyA (recursionChain cycleCtx))) ∧
    recursionChain cycleCtx
      = (cycleCtx.values.takeWhile (fun i => i.valid)).map (fun i => i.rt) :=
  require_recursion_diagnostic trivialProvider cycleCtx tyA ⟨0, tyA, none, false⟩ rfl rfl rfl rfl

/-- C3: Finalize is idempotent — the first invocation on an unfinalized
context performs the teardown and returns the remodeled aggregate, and any
invocation on the context it leaves behind is a no-op returning exactly the
error passed to that invocation. -/
theorem finalize_idempotent (enc : String → String) (c : Ctx) (e e2 : Option Err) :
    (c.finalized = false →
       (Finalize enc c e).1 = { finalizeStart c with values := [] } ∧
       (Finalize enc c e).2 = remodel enc e (collectedErrors (finalizeStart c) e)) ∧
    Finalize enc (Finalize enc c e).1 e2 = ((Finalize enc c e).1, e2) := by
  constructor
  · intro h
    simp [Finalize, h]
  · by_cases h : c.finalized
    · simp [Finalize, h]
    · simp [Finalize, h, finalizeStart]

/-- C3 (witness): concrete double finalization of a fresh context. -/
theorem finalize_idempotent_witness :
    ((Finalize id NewContext none).1 = { finalizeStart NewContext with values := [] } ∧
     (Finalize id NewContext none).2
       = remodel id none (collectedErrors (finalizeStart NewContext) none)) ∧
    Finalize id (Finalize id NewContext none).1 (some callErr)
      = ((Finalize id NewContext none).1, some callErr) :=
  ⟨(finalize_idempotent id NewContext none (some callErr)).1 rfl,
   (finalize_idempotent id NewContext none (some callErr)).2⟩

/-- C4: Finalize flips the finalized flag as its first mutation (the teardown
walk and remodeling read the already-flagged context), and once the flag is
true any Require fails fatally with the already-finalized panic, creating no
slot. -/
theorem finalize_flag_first (enc : String → String) (c : Ctx) (e : Option Err)
    (p : Provider) (t : RType) :
    (finalizeStart c).finalized = true ∧
    (c.finalized = false →
       Finalize enc c e =
         ({ finalizeStart c with values := [] },
          remodel enc e (collectedErrors (finalizeStart c) e))) ∧
    (c.finalized = true → Require p c t = (c, Except.error Panic.alreadyFinalized)) := by
  refine ⟨rfl, ?_, ?_⟩
  · intro h
    simp [Finalize, h]
  · intro h
    simp [Require, h]

/-- C4 (witness): the flag is set and a Require on a finalized concrete
context fails fatally without touching the store. -/
theorem finalize_flag_first_witness :
    (finalizeStart NewContext).finalized = true ∧
    (Finalize id NewContext none
       = ({ finalizeStart NewContext with values := [] },
          remodel id none (collectedErrors (finalizeStart NewContext) none))) ∧
    (Require trivialProvider (finalizeStart NewContext) tyA
       = (finalizeStart NewContext, Except.error Panic.alreadyFinalized)) :=
  ⟨(finalize_flag_first id NewContext none trivialProvider tyA).1,
   (finalize_flag_first id NewContext none trivialProvider tyA).2.1 rfl,
   (finalize_flag_first id (finalizeStart NewContext) none trivialProvider tyA).2.2 rfl⟩

/-- C5: the teardown walk processes the most-recently-acquired slot first and
feeds each finalizer the error set accumulated so far (the caller-supplied
error first), appending any non-nil returned error; afterwards all slots are
released. On the concrete two-value store, V2's finalizer runs strictly
before V1's: its failure precedes V1's in the collected set. -/
theorem finalize_reverse_walk (enc : String → String) (c : Ctx) (e : Option Err)
    (vs : List ValueItem) (v : ValueItem) (acc : List Err) (e0 : Err) :
    ((vs ++ [v]).reverse.foldl finalizeStep acc
       = vs.reverse.foldl finalizeStep (finalizeStep acc v)) ∧
    (∀ (acc2 : List Err) (it : ValueItem) (vv : Val) (f : List Err → Option Err) (e2 : Err),
       it.val = some vv → vv.fin = some f →
       (f acc2 = some e2 → finalizeStep acc2 it = acc2 ++ [e2]) ∧
       (f acc2 = none → finalizeStep acc2 it = acc2)) ∧
    (collectedErrors c (some e0) = c.values.reverse.foldl finalizeStep [e0]) ∧
    (c.finalized = false → (Finalize enc c e).1.values = []) ∧
    (collectedErrors twoFinCtx (some callErr)
       = [callErr, secondCleanupErr, firstCleanupErr]) := by
  refine ⟨?_, ?_, rfl, ?_, rfl⟩
  · simp [List.reverse_append]
  · intro acc2 it vv f e2 hval hfin
    constructor <;> intro hres <;> simp [finalizeStep, hval, hfin, hres]
  · intro h
    simp [Finalize, h]

/-- C5 (witness): one finalizer step appends its failure to the accumulated
set, and finalizing the concrete two-value store releases all slots. -/
theorem finalize_reverse_walk_witness :
    finalizeStep [] ⟨0, tyA, some firstFinVal, true⟩ = [] ++ [firstCleanupErr] ∧
    (Finalize id twoFinCtx (some callErr)).1.values = [] :=
  ⟨((finalize_reverse_walk id twoFinCtx (some callErr) []
      ⟨0, tyA, some firstFinVal, true⟩ [] callErr).2.1
      [] ⟨0, tyA, some firstFinVal, true⟩ firstFinVal
      (fun _ => some firstCleanupErr) firstCleanupErr rfl rfl).1 rfl,
   (finalize_reverse_walk id twoFinCtx (some callErr) []
      ⟨0, tyA, some firstFinVal, true⟩ [] callErr).2.2.2.1 rfl⟩

/-- C6: StoreValue fails fatally exactly when some slot with the same type
identity exists — the scan consults only the type identity, never the valid
flag or how the slot was created — and otherwise appends one fresh valid slot
holding the value. -/
theorem storeValue_duplicate_guard (c : Ctx) (rt : RType) (v : Option Val) :
    (c.values.any (fun it => it.rt == rt) = true →
       StoreValue c rt v = (c, Except.error (Panic.alreadyStored rt))) ∧
    (c.values.any (fun it => it.rt == rt) = false →
       StoreValue c rt v =
         ({ c with values := c.values ++ [⟨c.nextRef, rt, v, true⟩],
                   nextRef := c.nextRef + 1 }, Except.ok ())) := by
  constructor <;> intro h <;> simp [StoreValue, h]

/-- C6 (witness): storing over a still-invalid reserved slot is fatal, and
storing a fresh type appends a valid slot. -/
theorem storeValue_duplicate_guard_witness :
    StoreValue cycleCtx tyA (some dbVal)
      = (cycleCtx, Except.error (Panic.alreadyStored tyA)) ∧
    StoreValue NewContext tyB (some dbVal)
      = ({ NewContext with values := NewContext.values ++ [⟨1, tyB, some dbVal, true⟩],
                           nextRef := 2 }, Except.ok ()) :=
  ⟨(storeValue_duplicate_guard cycleCtx tyA (some dbVal)).1 rfl,
   (storeValue_duplicate_guard NewContext tyB (some dbVal)).2 rfl⟩

/-- C7: Finalize returns nil when the collected failure set is empty, and
when it collects exactly one failure identical (Go interface identity) to the
error originally passed in, it returns that error unchanged. -/
theorem finalize_zero_and_identity (enc : String → String) (c : Ctx) (err : Option Err)
    (e x : Err) :
    (c.finalized = false → collectedErrors (finalizeStart c) err = [] →
       (Finalize enc c err).2 = none) ∧
    (c.finalized = false → collectedErrors (finalizeStart c) (some e) = [x] →
       errEq x e = true → (Finalize enc c (some e)).2 = some e) := by
  constructor
  · intro h hz
    simp [Finalize, h, hz, remodel]
  · intro h hone hid
    simp [Finalize, h, hone, remodel, singleIsOriginal, hid]

/-- C7 (witness): a fresh context finalized with no error returns nil, and
finalized with only the caller's error returns that error unchanged. -/
theorem finalize_zero_and_identity_witness :
    (Finalize id NewContext none).2 = none ∧
    (Finalize id NewContext (some callErr)).2 = some callErr :=
  ⟨(finalize_zero_and_identity id NewContext none callErr callErr).1 rfl rfl,
   (finalize_zero_and_identity id NewContext (some callErr) callErr callErr).2 rfl rfl rfl⟩

/-- C8: a fresh context holds no slot for any type other than its own
self-registration; a Require on a valid cached slot returns the identical
held value instance with the context untouched, for every Provider (so the
Provider is not invoked) — which also covers a Require issued inside another
type's Provider; and a first Require for an absent type is decided by a
single Provider application on the context with the reservation, a
non-mutating Provider leaving behind exactly one new valid slot holding the
provided value. -/
theorem require_caches_values (p q : Provider) (c : Ctx) (t : RType) (it : ValueItem)
    (c2 : Ctx) (v : Option Val) :
    (∀ t2, t2 ≠ TypeContext → findSlot NewContext t2 = none) ∧
    (c.finalized = false → allowedKind t = true → findSlot c t = some it → it.valid = true →
       Require p c t = (c, Except.ok it.val) ∧ Require q c t = (c, Except.ok it.val)) ∧
    (c.finalized = false → allowedKind t = true → findSlot c t = none →
       p (reserve c t) t = (c2, Except.ok v) →
       Require p c t = (markValid c2 c.nextRef v, Except.ok v)) ∧
    (c.finalized = false → allowedKind t = true → findSlot c t = none →
       (∀ x ∈ c.values, x.ref < c.nextRef) →
       p (reserve c t) t = (reserve c t, Except.ok v) →
       Require p c t = ({ c with values := c.values ++ [⟨c.nextRef, t, v, true⟩],
                                 nextRef := c.nextRef + 1 }, Except.ok v)) := by
  refine ⟨?_, ?_, ?_, ?_⟩
  · intro t2 ht2
    have hne : (TypeContext == t2) = false := by
      simp only [beq_eq_false_iff_ne, ne_eq]
      exact fun hh => ht2 hh.symm
    simp [NewContext, StoreValue, findSlot, List.find?, hne]
  · intro hf hk hs hv
    constructor <;> simp [Require, hf, hk, hs, hv]
  · intro hf hk hs hp
    simp [Require, hf, hk, hs, hp]
  · intro hf hk hs hwf hp
    simp [Require, hf, hk, hs, hp]
    exact hf ▸ markValid_reserve c t v hwf

/-- C8 (witness): the store-DB-then-require-Session scenario — requiring DB
twice (once through the Session Provider) serves the identical cached DB
instance, and requiring Session runs its Provider once, appending exactly
one valid Session slot. -/
theorem require_caches_values_witness :
    (findSlot NewContext tyDB = none) ∧
    (Require sessionProvider dbCtx tyDB = (dbCtx, Except.ok (some dbVal)) ∧
     Require trivialProvider dbCtx tyDB = (dbCtx, Except.ok (some dbVal))) ∧
    (Require sessionProvider dbCtx tySession
       = ({ dbCtx with values := dbCtx.values ++ [⟨2, tySession, some sessionVal, true⟩],
                       nextRef := 3 }, Except.ok (some sessionVal))) := by
  refine ⟨?_, ?_, ?_⟩
  · exact (require_caches_values trivialProvider trivialProvider dbCtx tyDB
      ⟨1, tyDB, some dbVal, true⟩ dbCtx none).1 tyDB (by decide)
  · exact (require_caches_values sessionProvider trivialProvider dbCtx tyDB
      ⟨1, tyDB, some dbVal, true⟩ dbCtx none).2.1 rfl rfl rfl rfl
  · exact (require_caches_values sessionProvider trivialProvider dbCtx tySession
      ⟨1, tyDB, some dbVal, true⟩ dbCtx (some sessionVal)).2.2.2 rfl rfl rfl
      (by intro x hx
          fin_cases hx <;> simp [dbCtx]) rfl

/-- C9: Invalidate keeps exactly the slots whose type identity is outside the
given set (order preserved), so no slot for an invalidated type remains, and
a following Require for that type takes the fresh path: its outcome is the
Provider's, applied to the context with the new reservation. -/
theorem invalidate_forces_reprovide (c : Ctx) (rts : List RType) (t : RType)
    (p : Provider) (c2 : Ctx) (v : Option Val) :
    ((Invalidate c rts).values = c.values.filter (fun it => !(rts.contains it.rt))) ∧
    (rts.contains t = true → findSlot (Invalidate c rts) t = none) ∧
    (c.finalized = false → rts.contains t = true → allowedKind t = true →
       p (reserve (Invalidate c rts) t) t = (c2, Except.ok v) →
       Require p (Invalidate c rts) t
         = (markValid c2 (Invalidate c rts).nextRef v, Except.ok v)) := by
  refine ⟨rfl, ?_, ?_⟩
  · intro h
    exact findSlot_invalidate_none c rts t h
  · intro hf hmem hk hp
    have hfI : (Invalidate c rts).finalized = false := hf
    have hs := findSlot_invalidate_none c rts t hmem
    simp [Require, hfI, hk, hs, hp]

/-- C9 (witness): invalidating the cached tyA slot empties the store and the
next Require re-runs the Provider instead of serving the old value. -/
theorem invalidate_forces_reprovide_witness :
    ((Invalidate cachedCtx [tyA]).values = []) ∧
    (findSlot (Invalidate cachedCtx [tyA]) tyA = none) ∧
    (Require trivialProvider (Invalidate cachedCtx [tyA]) tyA
       = (markValid (reserve (Invalidate cachedCtx [tyA]) tyA) 1 none, Except.ok none)) := by
  refine ⟨(invalidate_forces_reprovide cachedCtx [tyA] tyA trivialProvider
      (reserve (Invalidate cachedCtx [tyA]) tyA) none).1, ?_, ?_⟩
  · exact (invalidate_forces_reprovide cachedCtx [tyA] tyA trivialProvider
      (reserve (Invalidate cachedCtx [tyA]) tyA) none).2.1 rfl
  · exact (invalidate_forces_reprovide cachedCtx [tyA] tyA trivialProvider
      (reserve (Invalidate cachedCtx [tyA]) tyA) none).2.2 rfl rfl rfl rfl

/-- C10: a Provider failure propagates with the state the Provider left
behind, so for a non-mutating failing Provider the reserved slot stays in the
store, invalid; any later Require for that type then fails with the
recursion-loop diagnostic instead of retrying the Provider, until an
Invalidate of the type removes the poisoned slot. -/
theorem provider_failure_poisons (p q : Provider) (c c2 c3 : Ctx) (t : RType)
    (e : Panic) (it : ValueItem) :
    (c.finalized = false → allowedKind t = true → findSlot c t = none →
       p (reserve c t) t = (c2, Except.error e) →
       Require p c t = (c2, Except.error e)) ∧
    (findSlot c t = none →
       findSlot (reserve c t) t = some ⟨c.nextRef, t, none, false⟩) ∧
    (c3.finalized = false → allowedKind t = true → findSlot c3 t = some it →
       it.valid = false →
       Require q c3 t = (c3, Except.error (Panic.recursionLoop t (recursionChain c3)))) ∧
    (findSlot (Invalidate c3 [t]) t = none) := by
  refine ⟨?_, ?_, ?_, ?_⟩
  · intro hf hk hs hp
    simp [Require, hf, hk, hs, hp]
  · intro hs
    exact findSlot_reserve c t hs
  · intro hf hk hs hv
    simp [Require, hf, hk, hs, hv]
  · exact findSlot_invalidate_none c3 [t] t (by simp)

/-- C10 (witness): a failing Provider for tyA leaves the invalid reservation
behind; the next Require fails with the recursion diagnostic; Invalidate
removes the poisoned slot. -/
theorem provider_failure_poisons_witness :
    (Require failProvider NewContext tyA
       = (reserve NewContext tyA,
          Except.error (Panic.providerPanic (Err.plain 9 "provider exploded")))) ∧
    (findSlot (reserve NewContext tyA) tyA = some ⟨1, tyA, none, false⟩) ∧
    (Require trivialProvider (reserve NewContext tyA) tyA
       = (reserve NewContext tyA,
          Except.error (Panic.recursionLoop tyA [TypeContext]))) ∧
    (findSlot (Invalidate (reserve NewContext tyA) [tyA]) tyA = none) := by
  refine ⟨?_, ?_, ?_, ?_⟩
  · exact (provider_failure_poisons failProvider trivialProvider NewContext
      (reserve NewContext tyA) (reserve NewContext tyA) tyA
      (Panic.providerPanic (Err.plain 9 "provider exploded"))
      ⟨1, tyA, none, false⟩).1 rfl rfl rfl rfl
  · exact (provider_failure_poisons failProvider trivialProvider NewContext
      (reserve NewContext tyA) (reserve NewContext tyA) tyA
      (Panic.providerPanic (Err.plain 9 "provider exploded"))
      ⟨1, tyA, none, false⟩).2.1 rfl
  · have h := (provider_failure_poisons failProvider trivialProvider NewContext
      (reserve NewContext tyA) (reserve NewContext tyA) tyA
      (Panic.providerPanic (Err.plain 9 "provider exploded"))
      ⟨1, tyA, none, false⟩).2.2.1 rfl rfl rfl rfl
    simpa using h
  · exact (provider_failure_poisons failProvider trivialProvider NewContext
      (reserve NewContext tyA) (reserve NewContext tyA) tyA
      (Panic.providerPanic (Err.plain 9 "provider exploded"))
      ⟨1, tyA, none, false⟩).2.2.2

end Jonson
